import Mathlib

/-!
Shallow embedding of the discord-bot commit-notification pipeline.

The definitions below translate, function by function, the JavaScript sources:
* `src/formatters/commit-formatter.js` — `createCommitEmbed`, `formatCommitMessage`,
  `calculateTotalChanges`, `formatChangeStats`, `formatFileChanges`, `getCommitColor`;
* `src/services/github-service.js` — `checkForNewCommits`, `fetchCommitDetails`;
* `src/utils/commit-tracker.js` — `updateLastSeenCommit`, `getLastSeenCommit`,
  `getTrackingInfo`;
* `bot.js` — `getLastCommitFromChannel` footer extraction and the cursor-update
  step of `pollForCommits`.

JavaScript strings are modelled by `String`; the handful of string operations the
code uses (`substring`, `split`, `join`, `replace`) are embedded as executable
functions on the underlying character list.  The locale-dependent
`new Date(x).toLocaleString()` is modelled as an explicit function parameter
`fmt : String → String`.  Fallible network calls are modelled by `Except`-typed
inputs.  JavaScript truthiness on strings (`!s`, `s || d`) is modelled explicitly:
the empty string is falsy.
-/

namespace DiscordBot

/-- Embedding of the JavaScript `s.substring(0, n)`. -/
def strTake (s : String) (n : Nat) : String :=
  String.mk (s.data.take n)

/-- Embedding of `message.split('\n')[0]`: the text before the first newline. -/
def firstLine (s : String) : String :=
  String.mk (s.data.takeWhile (fun c => c ≠ '\n'))

/-- Embedding of JavaScript `Array.prototype.join(sep)`. -/
def strJoin (sep : String) : List String → String
  | [] => ""
  | x :: xs => xs.foldl (fun acc y => acc ++ sep ++ y) x

/-- Characters strictly before the first occurrence of `sep`; the character-list
core of `s.split(sep)[0]` for a non-empty separator. -/
def beforeFirstAux (sep : List Char) : List Char → List Char
  | [] => []
  | c :: rest => if sep.isPrefixOf (c :: rest) then [] else c :: beforeFirstAux sep rest

/-- Embedding of `s.split(sep)[0]` for a non-empty separator `sep`. -/
def splitHead (sep s : String) : String :=
  String.mk (beforeFirstAux sep.data s.data)

/-- Replace the first occurrence of `pat` by `repl`, on character lists. -/
def replaceFirstAux (pat repl : List Char) : List Char → List Char
  | [] => []
  | c :: rest =>
      if pat.isPrefixOf (c :: rest) then repl ++ (c :: rest).drop pat.length
      else c :: replaceFirstAux pat repl rest

/-- Embedding of the JavaScript `s.replace(pat, repl)` (first occurrence only). -/
def replaceFirst (s pat repl : String) : String :=
  String.mk (replaceFirstAux pat.data repl.data s.data)

/-- Embedding of `Array.prototype.findIndex`, with `none` for the sentinel -1. -/
def jsFindIndex {α : Type} (p : α → Bool) : List α → Option Nat
  | [] => none
  | a :: as => if p a then some 0 else (jsFindIndex p as).map (fun i => i + 1)

/-- JavaScript `x || undefined` on an optional string value: a missing or empty
(falsy) string becomes `undefined`. -/
def jsOrUndef (o : Option String) : Option String :=
  match o with
  | none => none
  | some s => if s = "" then none else some s

/-- JavaScript `x || d` on an optional string value: a missing or empty (falsy)
string is replaced by the default `d`. -/
def jsOrStr (o : Option String) (d : String) : String :=
  match o with
  | none => d
  | some s => if s = "" then d else s

/-! ## Data model -/

/-- Aggregate addition/deletion counts of one commit (`commit.stats`). -/
structure Stats where
  additions : Nat
  deletions : Nat
  total : Nat
deriving Repr, DecidableEq

/-- Commit author block (`commit.author`). -/
structure Author where
  name : String
  email : String
  avatar : Option String
deriving Repr, DecidableEq

/-- A commit record in the shape produced by `transformCommitData` and consumed
by the formatter: identity, message, authorship, timestamp, url and the
added/modified/removed path lists. -/
structure Commit where
  id : String
  sha : String
  message : String
  timestamp : String
  url : String
  author : Author
  added : List String
  modified : List String
  removed : List String
  stats : Stats
deriving Repr, DecidableEq

/-- Repository block of a webhook payload (`payload.repository`). -/
structure Repo where
  name : String
deriving Repr, DecidableEq

/-- Webhook-style payload handed to `createCommitEmbed`. -/
structure Payload where
  commits : List Commit
  repository : Repo
  ref : Option String
deriving Repr, DecidableEq

/-- Output of `calculateTotalChanges`. -/
structure TotalStats where
  added : Nat
  removed : Nat
  modified : Nat
  total : Nat
deriving Repr, DecidableEq

/-- One field of a Discord embed. -/
structure EmbedField where
  name : String
  value : String
  inline : Bool
deriving Repr, DecidableEq

/-- Author block of a Discord embed. -/
structure EmbedAuthor where
  name : String
  icon : Option String
deriving Repr, DecidableEq

/-- A Discord embed as built by `createCommitEmbed`; the footer is its `text`. -/
structure Embed where
  color : Nat
  title : String
  url : String
  author : EmbedAuthor
  description : String
  fields : List EmbedField
  footer : String
  timestamp : String
deriving Repr, DecidableEq

/-! ## commit-formatter.js -/

/-- `formatCommitMessage`: first line of the message; if longer than 100
characters, `substring(0, 97)` plus an ellipsis marker. -/
def formatCommitMessage (message : String) : String :=
  let title := firstLine message
  if title.length > 100 then strTake title 97 ++ "..." else title

/-- `calculateTotalChanges`: sums of the added/removed/modified path counts over
all commits of the payload. -/
def calculateTotalChanges (commits : List Commit) : TotalStats :=
  let a := (commits.map (fun c => c.added.length)).sum
  let r := (commits.map (fun c => c.removed.length)).sum
  let m := (commits.map (fun c => c.modified.length)).sum
  { added := a, removed := r, modified := m, total := a + r + m }

/-- `formatChangeStats`: the non-zero terms `+A`, `-R`, `~M` in that order,
joined by single spaces; `No changes` when all are zero. -/
def formatChangeStats (stats : TotalStats) : String :=
  let parts :=
    (if stats.added > 0 then ["+" ++ Nat.repr stats.added] else []) ++
    (if stats.removed > 0 then ["-" ++ Nat.repr stats.removed] else []) ++
    (if stats.modified > 0 then ["~" ++ Nat.repr stats.modified] else [])
  if parts.length > 0 then strJoin " " parts else "No changes"

/-- The `allFiles` list of `formatFileChanges`: added paths first (marked `+ `),
then modified (`~ `), then removed (`- `). -/
def allFilesOf (commit : Commit) : List String :=
  commit.added.map (fun f => "+ " ++ f) ++
  commit.modified.map (fun f => "~ " ++ f) ++
  commit.removed.map (fun f => "- " ++ f)

/-- `formatFileChanges`: the marked file list inside a diff code fence, showing
at most 10 entries plus a `... and N more` line; `No files changed` when
empty. -/
def formatFileChanges (commit : Commit) : String :=
  let allFiles := allFilesOf commit
  if allFiles.length = 0 then "No files changed"
  else if allFiles.length > 10 then
    "```diff\n" ++ strJoin "\n" (allFiles.take 10) ++ "\n... and " ++
      Nat.repr (allFiles.length - 10) ++ " more```"
  else "```diff\n" ++ strJoin "\n" allFiles ++ "```"

/-- `getCommitColor`: green for additions only, red for deletions only, orange
for both, purple otherwise. -/
def getCommitColor (commit : Commit) : Nat :=
  let hasAdditions := commit.added.length > 0
  let hasDeletions := commit.removed.length > 0
  if hasAdditions ∧ ¬hasDeletions then 0x28a745
  else if hasDeletions ∧ ¬hasAdditions then 0xdc3545
  else if hasAdditions ∧ hasDeletions then 0xffc107
  else 0x6f42c1

/-- The branch computation of `createCommitEmbed`:
`payload.ref ? payload.ref.replace('refs/heads/', '') : 'unknown'` (a missing or
empty `ref` is falsy). -/
def branchOf (ref : Option String) : String :=
  match ref with
  | none => "unknown"
  | some r => if r = "" then "unknown" else replaceFirst r "refs/heads/" ""

/-- `createCommitEmbed`: `none` when the payload has no commits, otherwise the
embed built from the last commit of the list (description, url, color, author,
footer) and the aggregate change stats over all commits.  `fmt` models
`ts => new Date(ts).toLocaleString()`. -/
def createCommitEmbed (fmt : String → String) (p : Payload) : Option Embed :=
  match p.commits.getLast? with
  | none => none
  | some commit =>
      some {
        color := getCommitColor commit
        title := "📝 New commit to " ++ p.repository.name
        url := commit.url
        author := { name := commit.author.name, icon := jsOrUndef commit.author.avatar }
        description := formatCommitMessage commit.message
        fields := [
          { name := "🌿 Branch", value := "`" ++ branchOf p.ref ++ "`", inline := true },
          { name := "📊 Changes", value := formatChangeStats (calculateTotalChanges p.commits),
            inline := true },
          { name := "🔧 Files Modified", value := formatFileChanges commit, inline := false }],
        footer := strTake commit.id 7 ++ " • " ++ fmt commit.timestamp
        timestamp := commit.timestamp }

/-! ## github-service.js -/

/-- `checkForNewCommits`, applied to an already-fetched newest-first window.
A missing or empty (falsy) cursor, or a cursor whose sha occurs nowhere in the
window, yields the single newest commit; a cursor found at index `i` yields the
`i` strictly newer commits, reversed to chronological order. -/
def checkForNewCommits (window : List Commit) (lastSeenCommitHash : Option String) :
    List Commit :=
  match lastSeenCommitHash with
  | none => window.take 1
  | some h =>
      if h = "" then window.take 1
      else
        match jsFindIndex (fun c => c.sha == h) window with
        | none => window.take 1
        | some lastSeenIndex => (window.take lastSeenIndex).reverse

/-- One `files` entry of the commit-detail response. -/
structure FileEntry where
  status : String
  filename : String
deriving Repr, DecidableEq

/-- Body of a successful commit-detail response (`response.data`): the `files`
array and the aggregate `stats`, both optional in the JSON. -/
structure CommitDetailResp where
  files : Option (List FileEntry)
  stats : Option Stats
deriving Repr, DecidableEq

/-- Result shape of `fetchCommitDetails`. -/
structure FileChanges where
  added : List String
  modified : List String
  removed : List String
  stats : Stats
deriving Repr, DecidableEq

/-- `fetchCommitDetails`: on a successful response, per-status file lists and
defaulted stats; on any fetch error, empty change sets and all-zero stats (the
`catch` branch) — the function itself never throws. -/
def fetchCommitDetails (resp : Except Unit CommitDetailResp) : FileChanges :=
  match resp with
  | Except.error _ => { added := [], modified := [], removed := [], stats := ⟨0, 0, 0⟩ }
  | Except.ok r =>
      let files := r.files.getD []
      { added := (files.filter (fun f => f.status == "added")).map (fun f => f.filename)
        modified := (files.filter (fun f => f.status == "modified")).map (fun f => f.filename)
        removed := (files.filter (fun f => f.status == "removed")).map (fun f => f.filename)
        stats := { additions := (r.stats.map (fun s => s.additions)).getD 0
                   deletions := (r.stats.map (fun s => s.deletions)).getD 0
                   total := (r.stats.map (fun s => s.total)).getD 0 } }

/-! ## bot.js -/

/-- The spread `{ ...commit, ...details }` of `pollForCommits`: the detail
fields override the commit's change sets and stats. -/
def enhanceCommit (c : Commit) (d : FileChanges) : Commit :=
  { c with added := d.added, modified := d.modified, removed := d.removed, stats := d.stats }

/-- The `fakePayload` built by `pollForCommits` around a single enhanced
commit. -/
def fakePayload (repoName : String) (c : Commit) : Payload :=
  { commits := [c], repository := { name := repoName }, ref := some "refs/heads/main" }

/-- The footer parsing of `getLastCommitFromChannel`:
`embed.footer.text.split(' • ')[0]`. -/
def extractCursorFromFooter (footer : String) : String :=
  splitHead " • " footer

/-- The cursor-update step of `pollForCommits` for one cycle in which delivery
succeeds: when detection returned at least one commit, the stored cursor is
overwritten with the sha of the last commit of the detected (chronological)
list; otherwise it is left untouched.  `lastSeen` is the cursor value fed to
detection (the file tracker's value in `src/bot.js`, the channel-footer
extraction in the multi-repository `bot.js`). -/
def pollCycleCursorUpdate (window : List Commit) (lastSeen : Option String)
    (stored : Option String) : Option String :=
  let newCommits := checkForNewCommits window lastSeen
  match newCommits.getLast? with
  | none => stored
  | some c => some c.sha

/-! ## commit-tracker.js -/

/-- Metadata snapshot stored next to the cursor. -/
structure TrackerMeta where
  author : String
  message : String
  timestamp : String
deriving Repr, DecidableEq

/-- The optional `metadata` argument of `updateLastSeenCommit`; each field may
be absent (the default `{}` has all of them absent). -/
structure MetaInput where
  author : Option String := none
  message : Option String := none
  timestamp : Option String := none
deriving Repr, DecidableEq

/-- Contents of the tracker file `last-commit.json`. -/
structure TrackerData where
  lastCommitSha : String
  lastUpdated : String
  metadata : TrackerMeta
deriving Repr, DecidableEq

/-- Result of `getTrackingInfo`. -/
structure TrackingInfo where
  hasTracking : Bool
  lastCommitSha : Option String
  lastUpdated : Option String
  metadata : Option TrackerMeta
deriving Repr, DecidableEq

/-- `updateLastSeenCommit`: the record written to the tracker file.  `now`
models `new Date().toISOString()`; missing or empty (falsy) metadata fields are
replaced by `'unknown'` or by `now`. -/
def updateLastSeenCommit (commitSha : String) (metadata : MetaInput) (now : String) :
    TrackerData :=
  { lastCommitSha := commitSha
    lastUpdated := now
    metadata := { author := jsOrStr metadata.author "unknown"
                  message := jsOrStr metadata.message "unknown"
                  timestamp := jsOrStr metadata.timestamp now } }

/-- `getLastSeenCommit`: `parsed.lastCommitSha || null` on the stored file, and
`null` when the file is missing or unreadable (`store = none`). -/
def getLastSeenCommit (store : Option TrackerData) : Option String :=
  match store with
  | none => none
  | some d => if d.lastCommitSha = "" then none else some d.lastCommitSha

/-- `getTrackingInfo`: the stored record verbatim, or the empty tracking state
when no file exists. -/
def getTrackingInfo (store : Option TrackerData) : TrackingInfo :=
  match store with
  | none => { hasTracking := false, lastCommitSha := none, lastUpdated := none, metadata := none }
  | some d => { hasTracking := true, lastCommitSha := some d.lastCommitSha,
                lastUpdated := some d.lastUpdated, metadata := some d.metadata }

/-! ## Ordering and test fixtures -/

/-- Strict lexicographic comparison of character lists (shorter comes first on a
tie), executable. -/
def charListLt : List Char → List Char → Bool
  | [], [] => false
  | [], _ :: _ => true
  | _ :: _, [] => false
  | a :: as, b :: bs => if a < b then true else if b < a then false else charListLt as bs

/-- Strict lexicographic order on strings; on the ISO-8601 timestamps carried by
commits this coincides with chronological order, so `tsLt a b = true` reads as
"the commit stamped `a` is strictly older than the one stamped `b`". -/
def tsLt (a b : String) : Bool := charListLt a.data b.data

/-- The added/removed/modified path counts of a commit, the only data an
earlier commit of a payload contributes to the embed. -/
def changeCounts (c : Commit) : Nat × Nat × Nat :=
  (c.added.length, c.removed.length, c.modified.length)

/-- A minimal commit fixture with the given sha (also used as id) and
timestamp. -/
def wCommit (sha ts : String) : Commit :=
  { id := sha, sha := sha, message := "m", timestamp := ts, url := "u"
    author := { name := "n", email := "e", avatar := none }
    added := [], modified := [], removed := [], stats := ⟨0, 0, 0⟩ }

/-- A 101-character single-line commit message. -/
def longMsg : String := String.mk (List.replicate 101 'a')

/-- A commit touching 12 added files. -/
def wideCommit : Commit :=
  { wCommit "ffff" "1" with
    added := ["f01", "f02", "f03", "f04", "f05", "f06", "f07", "f08", "f09", "f10",
              "f11", "f12"] }

/-- A two-commit webhook-style payload fixture. -/
def pwPayload : Payload :=
  { commits := [wCommit "aa" "1", wCommit "bb" "2"], repository := { name := "repo" }
    ref := some "refs/heads/main" }

/-! ## Helper lemmas -/

theorem strData_append (s t : String) : (s ++ t).data = s.data ++ t.data := rfl

theorem strAppend_assoc (a b c : String) : a ++ b ++ c = a ++ (b ++ c) := by
  show String.mk ((a.data ++ b.data) ++ c.data) = String.mk (a.data ++ (b.data ++ c.data))
  rw [List.append_assoc]

theorem strSpace_dash (t : String) : (" " : String) ++ ("-" ++ t) = " -" ++ t := by
  rw [← strAppend_assoc]
  have h : (" " : String) ++ "-" = " -" := by decide
  rw [h]

theorem strSpace_tilde (t : String) : (" " : String) ++ ("~" ++ t) = " ~" ++ t := by
  rw [← strAppend_assoc]
  have h : (" " : String) ++ "~" = " ~" := by decide
  rw [h]

theorem jsFindIndex_none_of_all {α : Type} (p : α → Bool) :
    ∀ l : List α, (∀ a ∈ l, p a = false) → jsFindIndex p l = none := by
  intro l
  induction l with
  | nil => intro _; rfl
  | cons a as ih =>
      intro h
      have ha := h a (List.mem_cons_self a as)
      simp [jsFindIndex, ha, ih (fun x hx => h x (List.mem_cons_of_mem _ hx))]

theorem jsFindIndex_some_spec {α : Type} (p : α → Bool) :
    ∀ (l : List α) (i : Nat), jsFindIndex p l = some i →
      ∃ hi : i < l.length, p (l.get ⟨i, hi⟩) = true := by
  intro l
  induction l with
  | nil => intro i h; simp [jsFindIndex] at h
  | cons a as ih =>
      intro i h
      by_cases hp : p a
      · simp [jsFindIndex, hp] at h
        subst h
        exact ⟨Nat.succ_pos _, hp⟩
      · simp [jsFindIndex, hp] at h
        obtain ⟨j, hj, rfl⟩ := h
        obtain ⟨hjl, hpj⟩ := ih j hj
        exact ⟨Nat.succ_lt_succ hjl, hpj⟩

/-! ## Claim theorems -/

/-- Claim C1 (amended: the cursor id must additionally be non-empty, because the
code treats an empty string as a falsy "no cursor"): for every newest-first
window in which the cursor sha occurs at index `i > 0`, detection returns
exactly the commits at indices `0..i-1`, reversed into chronological
oldest-first order. -/
theorem c1_detect_new_commits (window : List Commit) (h : String) (i : Nat)
    (hne : h ≠ "") (hfind : jsFindIndex (fun c => c.sha == h) window = some i)
    (hpos : 0 < i) :
    checkForNewCommits window (some h) = (window.take i).reverse := by
  simp [checkForNewCommits, hne, hfind]

/-- Witness for C1: the spec example, window `[c5,c4,c3,c2,c1]` with cursor
`c3`, yields `[c4,c5]`. -/
theorem c1_detect_new_commits_witness :
    checkForNewCommits
        [wCommit "c5" "5", wCommit "c4" "4", wCommit "c3" "3", wCommit "c2" "2",
          wCommit "c1" "1"] (some "c3")
      = [wCommit "c4" "4", wCommit "c5" "5"] :=
  (c1_detect_new_commits _ "c3" 2 (by decide) (by decide) (by decide)).trans (by decide)

/-- Counterexample for C1 as frozen: an empty-string cursor id occurring at
index 2 of the window is nevertheless treated as "no cursor"
(`!lastSeenCommitHash` is true for `''`), so detection returns the single
newest commit instead of the two strictly newer commits reversed. -/
theorem c1_empty_cursor_counterexample :
    jsFindIndex (fun c => c.sha == "")
        [wCommit "a" "3", wCommit "b" "2", wCommit "" "1"] = some 2
    ∧ checkForNewCommits [wCommit "a" "3", wCommit "b" "2", wCommit "" "1"] (some "")
        = [wCommit "a" "3"]
    ∧ [wCommit "a" "3"]
        ≠ (([wCommit "a" "3", wCommit "b" "2", wCommit "" "1"].take 2)).reverse := by
  decide

/-- Claim C4: over a non-empty fetched window, a missing cursor, or a cursor id
occurring nowhere in the window, makes detection return exactly the single
newest commit. -/
theorem c4_seed_single_newest (window : List Commit) (cursor : Option String)
    (hw : window ≠ [])
    (hcur : cursor = none ∨ ∀ c ∈ window, some c.sha ≠ cursor) :
    ∃ w0, window.head? = some w0 ∧ checkForNewCommits window cursor = [w0] := by
  obtain ⟨w0, rest, rfl⟩ := List.exists_cons_of_ne_nil hw
  refine ⟨w0, rfl, ?_⟩
  rcases hcur with rfl | hall
  · rfl
  · cases cursor with
    | none => rfl
    | some h =>
        by_cases hh : h = ""
        · simp [checkForNewCommits, hh]
        · have hnone : jsFindIndex (fun c => c.sha == h) (w0 :: rest) = none := by
            apply jsFindIndex_none_of_all
            intro a ha
            have := hall a ha
            simpa using this
          simp [checkForNewCommits, hh, hnone]

/-- Witness for C4: both the no-cursor and the cursor-not-found cases on a
concrete two-commit window return only the newest commit. -/
theorem c4_seed_single_newest_witness :
    (∃ w0, [wCommit "x" "2", wCommit "y" "1"].head? = some w0
      ∧ checkForNewCommits [wCommit "x" "2", wCommit "y" "1"] none = [w0])
    ∧ (∃ w0, [wCommit "x" "2", wCommit "y" "1"].head? = some w0
      ∧ checkForNewCommits [wCommit "x" "2", wCommit "y" "1"] (some "zzz") = [w0]) :=
  ⟨c4_seed_single_newest _ none (by decide) (Or.inl rfl),
   c4_seed_single_newest _ (some "zzz") (by decide) (Or.inr (by decide))⟩

/-- Claim C6: the formatted description is the first line of the commit
message, unchanged when at most 100 characters; a longer first line is cut to
its first 97 characters plus a 3-character ellipsis marker, 100 characters in
total. -/
theorem c6_title_truncation (msg : String) :
    ((firstLine msg).length ≤ 100 → formatCommitMessage msg = firstLine msg)
    ∧ (100 < (firstLine msg).length →
        formatCommitMessage msg = strTake (firstLine msg) 97 ++ "..."
        ∧ (formatCommitMessage msg).length = 100) := by
  constructor
  · intro hle
    simp only [formatCommitMessage]
    rw [if_neg (by omega)]
  · intro hgt
    have heq : formatCommitMessage msg = strTake (firstLine msg) 97 ++ "..." := by
      simp only [formatCommitMessage]
      rw [if_pos hgt]
    refine ⟨heq, ?_⟩
    rw [heq]
    show ((strTake (firstLine msg) 97 ++ "...").data).length = 100
    rw [strData_append]
    have hdata : 100 < (firstLine msg).data.length := hgt
    simp [strTake, List.length_take]
    omega

/-- Witness for C6: a 101-character single-line message renders as its first 97
characters plus `...`, and a short message is unchanged. -/
theorem c6_title_truncation_witness :
    (formatCommitMessage longMsg = strTake (firstLine longMsg) 97 ++ "..."
      ∧ (formatCommitMessage longMsg).length = 100)
    ∧ formatCommitMessage "short one\nbody" = firstLine "short one\nbody" :=
  ⟨(c6_title_truncation longMsg).2 (by decide),
   (c6_title_truncation "short one\nbody").1 (by decide)⟩

/-- Claim C7: for every stats record the aggregate change string is built from
only the non-zero terms, in the order `+A` then `-R` then `~M`, joined by
single spaces — characterized exhaustively over all eight zero/non-zero
patterns of the three counts: all-zero renders `No changes`; each single
non-zero count renders its lone term; each pair renders its two terms in
order; all three non-zero render `+A -R ~M`.  In particular additions-only
yields exactly `+A`, with no `-` and no `~` term. -/
theorem c7_change_stats (s : TotalStats) :
    (s.added = 0 → s.removed = 0 → s.modified = 0 → formatChangeStats s = "No changes")
    ∧ (0 < s.added → s.removed = 0 → s.modified = 0 →
        formatChangeStats s = "+" ++ Nat.repr s.added)
    ∧ (s.added = 0 → 0 < s.removed → s.modified = 0 →
        formatChangeStats s = "-" ++ Nat.repr s.removed)
    ∧ (s.added = 0 → s.removed = 0 → 0 < s.modified →
        formatChangeStats s = "~" ++ Nat.repr s.modified)
    ∧ (0 < s.added → 0 < s.removed → s.modified = 0 →
        formatChangeStats s = "+" ++ Nat.repr s.added ++ " " ++ "-" ++ Nat.repr s.removed)
    ∧ (0 < s.added → s.removed = 0 → 0 < s.modified →
        formatChangeStats s = "+" ++ Nat.repr s.added ++ " " ++ "~" ++ Nat.repr s.modified)
    ∧ (s.added = 0 → 0 < s.removed → 0 < s.modified →
        formatChangeStats s = "-" ++ Nat.repr s.removed ++ " " ++ "~" ++ Nat.repr s.modified)
    ∧ (0 < s.added → 0 < s.removed → 0 < s.modified →
        formatChangeStats s = "+" ++ Nat.repr s.added ++ " " ++ "-" ++ Nat.repr s.removed
          ++ " " ++ "~" ++ Nat.repr s.modified) := by
  refine ⟨?_, ?_, ?_, ?_, ?_, ?_, ?_, ?_⟩ <;> intro h1 h2 h3 <;>
    simp [formatChangeStats, h1, h2, h3, strJoin, strAppend_assoc, strSpace_dash,
      strSpace_tilde]

/-- Witness for C7, one concrete stats record per rendered shape: all-zero
(`No changes`), additions only (`+3`), deletions only (`-2`),
modifications only (`~4`), additions with deletions (`+1 -2`), and all three
(`+1 -2 ~3`). -/
theorem c7_change_stats_witness :
    formatChangeStats ⟨0, 0, 0, 0⟩ = "No changes"
    ∧ formatChangeStats ⟨3, 0, 0, 3⟩ = "+3"
    ∧ formatChangeStats ⟨0, 2, 0, 2⟩ = "-2"
    ∧ formatChangeStats ⟨0, 0, 4, 4⟩ = "~4"
    ∧ formatChangeStats ⟨1, 2, 0, 3⟩ = "+1 -2"
    ∧ formatChangeStats ⟨1, 2, 3, 6⟩ = "+1 -2 ~3" :=
  ⟨(c7_change_stats ⟨0, 0, 0, 0⟩).1 rfl rfl rfl,
   ((c7_change_stats ⟨3, 0, 0, 3⟩).2.1 (by decide) rfl rfl).trans (by decide),
   ((c7_change_stats ⟨0, 2, 0, 2⟩).2.2.1 rfl (by decide) rfl).trans (by decide),
   ((c7_change_stats ⟨0, 0, 4, 4⟩).2.2.2.1 rfl rfl (by decide)).trans (by decide),
   ((c7_change_stats ⟨1, 2, 0, 3⟩).2.2.2.2.1 (by decide) (by decide) rfl).trans (by decide),
   ((c7_change_stats ⟨1, 2, 3, 6⟩).2.2.2.2.2.2.2 (by decide) (by decide) (by decide)).trans
     (by decide)⟩

/-- Claim C8: the file list is built from added paths (marked `+`), then
modified (`~`), then removed (`-`); an empty list renders `No files changed`;
with more than 10 entries exactly the first 10 are shown followed by a
`... and N more` line counting the rest. -/
theorem c8_file_list (c : Commit) :
    allFilesOf c =
        c.added.map (fun f => "+ " ++ f) ++ c.modified.map (fun f => "~ " ++ f) ++
          c.removed.map (fun f => "- " ++ f)
    ∧ (allFilesOf c = [] → formatFileChanges c = "No files changed")
    ∧ (10 < (allFilesOf c).length →
        formatFileChanges c =
          "```diff\n" ++ strJoin "\n" ((allFilesOf c).take 10) ++ "\n... and " ++
            Nat.repr ((allFilesOf c).length - 10) ++ " more```"
        ∧ ((allFilesOf c).take 10).length = 10) := by
  refine ⟨rfl, ?_, ?_⟩
  · intro h
    simp [formatFileChanges, h]
  · intro h
    have hne : ¬ (allFilesOf c).length = 0 := by omega
    refine ⟨by simp [formatFileChanges, hne, h], ?_⟩
    simp [List.length_take]
    omega

/-- Witness for C8: a commit with 12 changed files renders the first 10 marked
lines followed by `... and 2 more`. -/
theorem c8_file_list_witness :
    10 < (allFilesOf wideCommit).length
    ∧ formatFileChanges wideCommit =
        "```diff\n+ f01\n+ f02\n+ f03\n+ f04\n+ f05\n+ f06\n+ f07\n+ f08\n+ f09\n+ f10\n... and 2 more```" :=
  ⟨by decide, (((c8_file_list wideCommit).2.2 (by decide)).1).trans (by decide)⟩

/-- Claim C2, evaluated at a failing input.  The footer of the embed built for
a commit with the 12-character sha `0123456789ab` is its 7-character short id
followed by ` • ` and the rendered time, and the channel fallback extraction
recovers exactly that short id.  But detection compares the extracted short id
against *full* shas, so over the window `[e, d, c]` (cursor taken from `c`'s
footer) it finds nothing, falls back to the single newest commit `[e]`, and
does not return the strictly newer commits `[d, e]` the claim promises. -/
theorem c2_short_hash_mismatch :
    (createCommitEmbed (fun _ => "1/1/2025, 12:00:00 PM")
        (fakePayload "berghain-bot" (wCommit "0123456789ab" "3"))).map Embed.footer
      = some "0123456 • 1/1/2025, 12:00:00 PM"
    ∧ extractCursorFromFooter "0123456 • 1/1/2025, 12:00:00 PM" = "0123456"
    ∧ "0123456" ≠ (wCommit "0123456789ab" "3").sha
    ∧ checkForNewCommits
        [wCommit "eeeeeeeeeeee" "5", wCommit "dddddddddddd" "4",
          wCommit "0123456789ab" "3"] (some "0123456")
      = [wCommit "eeeeeeeeeeee" "5"]
    ∧ [wCommit "eeeeeeeeeeee" "5"]
      ≠ [wCommit "dddddddddddd" "4", wCommit "eeeeeeeeeeee" "5"] := by
  decide

/-- Claim C3, counterexamples to the universally-stated monotonic advance.
Part one: with the channel-footer fallback cursor (a 7-character short id that
never matches a full sha), a cycle re-detects the already-delivered newest
commit and overwrites the stored cursor with the very same sha — an overwrite
that does not move to a strictly newer commit.  Part two: when the stored
cursor's commit has disappeared from the window (rewritten history), the
overwrite moves the cursor to the window's newest commit even though that
commit is strictly older than the stored one. -/
theorem c3_monotone_counterexample :
    (pollCycleCursorUpdate [wCommit "0123456789ab" "2025-03-01"] (some "0123456")
        (some "0123456789ab") = some "0123456789ab"
      ∧ checkForNewCommits [wCommit "0123456789ab" "2025-03-01"] (some "0123456") ≠ [])
    ∧ (pollCycleCursorUpdate [wCommit "aaaaaaaaaaaa" "2025-01-01"]
          (some "bbbbbbbbbbbb") (some "bbbbbbbbbbbb")
        = some (wCommit "aaaaaaaaaaaa" "2025-01-01").sha
      ∧ tsLt (wCommit "aaaaaaaaaaaa" "2025-01-01").timestamp
          (wCommit "bbbbbbbbbbbb" "2025-02-01").timestamp = true
      ∧ (wCommit "aaaaaaaaaaaa" "2025-01-01").sha
          ≠ (wCommit "bbbbbbbbbbbb" "2025-02-01").sha) := by
  decide

/-- Claim C3 (amended): the cursor is only ever overwritten with the sha of the
last commit delivered in that cycle, and when the stored cursor's sha occurs in
the fetched window at index `i > 0` — the window being strictly ordered
newest-first — the overwrite moves the cursor to the window's newest commit,
strictly newer than the commit it previously pointed at.  (When the cursor is
absent from the window the overwrite need not advance, see the
counterexample.) -/
theorem c3_monotone_when_found (window : List Commit) (h : String) (i : Nat)
    (hne : h ≠ "") (hfind : jsFindIndex (fun c => c.sha == h) window = some i)
    (hpos : 0 < i)
    (hsort : window.Pairwise (fun a b => tsLt b.timestamp a.timestamp = true)) :
    ∃ w0 ci,
      window.head? = some w0
      ∧ window.get? i = some ci
      ∧ ci.sha = h
      ∧ w0 ∈ checkForNewCommits window (some h)
      ∧ pollCycleCursorUpdate window (some h) (some h) = some w0.sha
      ∧ tsLt ci.timestamp w0.timestamp = true := by
  obtain ⟨hi, hp⟩ := jsFindIndex_some_spec _ window i hfind
  cases window with
  | nil => simp at hi
  | cons w0 rest =>
      obtain ⟨k, rfl⟩ : ∃ k, i = k + 1 := ⟨i - 1, by omega⟩
      refine ⟨w0, (w0 :: rest).get ⟨k + 1, hi⟩, rfl, (List.get?_eq_get hi).symm ▸ rfl, ?_, ?_, ?_, ?_⟩
      · exact beq_iff_eq.mp hp
      · have hchk : checkForNewCommits (w0 :: rest) (some h)
            = ((w0 :: rest).take (k + 1)).reverse := by
          simp [checkForNewCommits, hne, hfind]
        rw [hchk, List.take_succ_cons, List.mem_reverse]
        exact List.mem_cons_self _ _
      · have hchk : checkForNewCommits (w0 :: rest) (some h)
            = ((w0 :: rest).take (k + 1)).reverse := by
          simp [checkForNewCommits, hne, hfind]
        simp [pollCycleCursorUpdate, hchk, List.getLast?_reverse, List.take_succ_cons]
      · have hfin : (⟨0, Nat.succ_pos _⟩ : Fin (w0 :: rest).length) < ⟨k + 1, hi⟩ :=
          Nat.succ_pos _
        have := List.pairwise_iff_get.mp hsort _ _ hfin
        simpa using this

/-- Witness for C3 (amended): on the strictly newest-first window
`[c5,c4,c3,c2,c1]` with stored cursor `c3`, the cycle overwrites the cursor
with `c5`, strictly newer than `c3`. -/
theorem c3_monotone_when_found_witness :
    ∃ w0 ci,
      [wCommit "c5" "5", wCommit "c4" "4", wCommit "c3" "3", wCommit "c2" "2",
        wCommit "c1" "1"].head? = some w0
      ∧ [wCommit "c5" "5", wCommit "c4" "4", wCommit "c3" "3", wCommit "c2" "2",
          wCommit "c1" "1"].get? 2 = some ci
      ∧ ci.sha = "c3"
      ∧ w0 ∈ checkForNewCommits
          [wCommit "c5" "5", wCommit "c4" "4", wCommit "c3" "3", wCommit "c2" "2",
            wCommit "c1" "1"] (some "c3")
      ∧ pollCycleCursorUpdate
          [wCommit "c5" "5", wCommit "c4" "4", wCommit "c3" "3", wCommit "c2" "2",
            wCommit "c1" "1"] (some "c3") (some "c3") = some w0.sha
      ∧ tsLt ci.timestamp w0.timestamp = true :=
  c3_monotone_when_found _ "c3" 2 (by decide) (by decide) (by decide) (by decide)

/-- Claim C5: when the per-commit enrichment fetch fails, `fetchCommitDetails`
returns empty change sets and all-zero stats (it does not raise), and the embed
built for the enhanced commit still exists (the commit is notified) with
`No changes` as the Changes field and `No files changed` as the file list. -/
theorem c5_enrich_degrade (fmt : String → String) (c : Commit) :
    fetchCommitDetails (Except.error ())
      = { added := [], modified := [], removed := [], stats := ⟨0, 0, 0⟩ }
    ∧ Option.map (fun em => em.fields.map (fun f => f.value))
        (createCommitEmbed fmt
          (fakePayload "berghain-bot" (enhanceCommit c (fetchCommitDetails (Except.error ())))))
      = some ["`main`", "No changes", "No files changed"]
    ∧ (createCommitEmbed fmt
        (fakePayload "berghain-bot"
          (enhanceCommit c (fetchCommitDetails (Except.error ()))))).isSome = true := by
  refine ⟨rfl, rfl, rfl⟩

/-- Claim C9, counterexample to the universally-stated round trip: writing an
empty commit id and reading it back yields `none`, not the identical id,
because `getLastSeenCommit` applies the falsy coercion
`parsed.lastCommitSha || null`. -/
theorem c9_roundtrip_counterexample :
    getLastSeenCommit (some (updateLastSeenCommit "" {} "2025-01-01T00:00:00Z")) = none
    ∧ getLastSeenCommit (some (updateLastSeenCommit "" {} "2025-01-01T00:00:00Z"))
        ≠ some "" := by
  decide

/-- Claim C9 (amended: the commit id and the supplied metadata fields must be
non-empty, since the store coerces falsy values — `'' || null`,
`'' || 'unknown'`): writing the cursor and reading it back yields the identical
commit id, and the stored metadata snapshot read back equals the metadata that
was written. -/
theorem c9_roundtrip (sha a m t now : String)
    (hsha : sha ≠ "") (ha : a ≠ "") (hm : m ≠ "") (ht : t ≠ "") :
    getLastSeenCommit (some (updateLastSeenCommit sha ⟨some a, some m, some t⟩ now))
      = some sha
    ∧ (getTrackingInfo (some (updateLastSeenCommit sha ⟨some a, some m, some t⟩ now))).metadata
      = some ⟨a, m, t⟩
    ∧ (getTrackingInfo (some (updateLastSeenCommit sha ⟨some a, some m, some t⟩ now))).lastCommitSha
      = some sha := by
  refine ⟨?_, ?_, rfl⟩
  · simp [getLastSeenCommit, updateLastSeenCommit, hsha]
  · simp [getTrackingInfo, updateLastSeenCommit, jsOrStr, ha, hm, ht]

/-- Witness for C9 (amended): a concrete non-empty cursor and metadata record
round-trips identically. -/
theorem c9_roundtrip_witness :
    getLastSeenCommit
        (some (updateLastSeenCommit "0123456789ab" ⟨some "al", some "msg", some "t0"⟩ "n0"))
      = some "0123456789ab"
    ∧ (getTrackingInfo
        (some (updateLastSeenCommit "0123456789ab" ⟨some "al", some "msg", some "t0"⟩ "n0"))).metadata
      = some ⟨"al", "msg", "t0"⟩
    ∧ (getTrackingInfo
        (some (updateLastSeenCommit "0123456789ab" ⟨some "al", some "msg", some "t0"⟩ "n0"))).lastCommitSha
      = some "0123456789ab" :=
  c9_roundtrip "0123456789ab" "al" "msg" "t0" "n0" (by decide) (by decide) (by decide) (by decide)

/-- Claim C10: for a payload whose commit list ends in `c`, the embed exists
and takes its description, url, color, author block, footer and timestamp from
`c` alone; the Changes field aggregates the path counts over every commit; and
replacing the earlier commits by any others with the same per-commit path
counts leaves the embed unchanged. -/
theorem c10_embed_last_commit (fmt : String → String) (p : Payload) (cs : List Commit)
    (c : Commit) (hc : p.commits = cs ++ [c]) :
    (∃ em, createCommitEmbed fmt p = some em
      ∧ em.description = formatCommitMessage c.message
      ∧ em.url = c.url
      ∧ em.color = getCommitColor c
      ∧ em.author = { name := c.author.name, icon := jsOrUndef c.author.avatar }
      ∧ em.footer = strTake c.id 7 ++ " • " ++ fmt c.timestamp
      ∧ em.timestamp = c.timestamp
      ∧ em.fields.map (fun f => f.value)
          = ["`" ++ branchOf p.ref ++ "`",
             formatChangeStats (calculateTotalChanges (cs ++ [c])),
             formatFileChanges c])
    ∧ (∀ cs', cs'.map changeCounts = cs.map changeCounts →
        createCommitEmbed fmt { p with commits := cs' ++ [c] } = createCommitEmbed fmt p) := by
  obtain ⟨pc, pr, pref⟩ := p
  simp only at hc
  subst hc
  constructor
  · simp only [createCommitEmbed, List.getLast?_concat]
    exact ⟨_, rfl, rfl, rfl, rfl, rfl, rfl, rfl, rfl⟩
  · intro cs' hmap
    have hstats : calculateTotalChanges (cs' ++ [c]) = calculateTotalChanges (cs ++ [c]) := by
      have hadd : cs'.map (fun x => x.added.length) = cs.map (fun x => x.added.length) := by
        have := congrArg (List.map (fun q : Nat × Nat × Nat => q.1)) hmap
        simpa [List.map_map, changeCounts, Function.comp] using this
      have hrem : cs'.map (fun x => x.removed.length) = cs.map (fun x => x.removed.length) := by
        have := congrArg (List.map (fun q : Nat × Nat × Nat => q.2.1)) hmap
        simpa [List.map_map, changeCounts, Function.comp] using this
      have hmod : cs'.map (fun x => x.modified.length) = cs.map (fun x => x.modified.length) := by
        have := congrArg (List.map (fun q : Nat × Nat × Nat => q.2.2)) hmap
        simpa [List.map_map, changeCounts, Function.comp] using this
      simp [calculateTotalChanges, hadd, hrem, hmod]
    simp [createCommitEmbed, List.getLast?_concat, hstats]

/-- Witness for C10: on a concrete two-commit payload the embed exists and its
footer comes from the last commit. -/
theorem c10_embed_last_commit_witness :
    ∃ em, createCommitEmbed (fun s => s) pwPayload = some em
      ∧ em.footer = strTake (wCommit "bb" "2").id 7 ++ " • " ++ (wCommit "bb" "2").timestamp := by
  obtain ⟨⟨em, h1, _, _, _, _, hf, _, _⟩, _⟩ :=
    c10_embed_last_commit (fun s => s) pwPayload [wCommit "aa" "1"] (wCommit "bb" "2") rfl
  exact ⟨em, h1, hf⟩

end DiscordBot
